import Mathlib

/-!
Verification of the open-notebook retrieval pipeline against its
natural-language specification.

The definitions below are a shallow embedding of the Python source:

* `open_notebook/utils/context_builder.py` — the `ContextBuilder` class
  (item collection, deduplication, prioritisation, truncation, formatting);
* `open_notebook/domain/notebook.py` — the `get_context` methods of
  `Source` and `Note`;
* `commands/embedding_commands.py` — `embed_chunk_command` (with its
  declarative retry policy), `vectorize_source_command`,
  `collect_items_for_rebuild` and `rebuild_embeddings_command`.

External effects (database queries, the embedding provider, job submission)
are modelled as explicit oracle parameters, so every operation is a pure
Lean function of its inputs and of those oracles.
-/

namespace OpenNotebook

/-! ### Context payloads produced by `get_context`

`Source.get_context` returns a dict with keys `id`, `title`, `insights`
and, only in the `"long"` case, `full_text`.  The optional presence of the
`full_text` key is modelled by the field being an `Option (Option String)`:
`none` means the key is absent, `some v` means the key is present with
value `v`. -/

/-- One insight dump as produced by `insight.model_dump()` /
the insight content dict built in `_add_source_context`. -/
structure InsightDump where
  id : String
  source_id : String
  insight_type : String
  content : String
deriving DecidableEq, Repr

/-- The dict returned by `Source.get_context`. -/
structure SourceContext where
  id : String
  title : Option String
  insights : List InsightDump
  full_text : Option (Option String)
deriving DecidableEq, Repr

/-- The dict returned by `Note.get_context`. -/
structure NoteContext where
  id : String
  title : Option String
  content : Option String
deriving DecidableEq, Repr

/-- Content payload of one context item (the `content` dict of a
`ContextItem` in `context_builder.py`). -/
inductive CtxContent where
  | src (c : SourceContext)
  | note (c : NoteContext)
  | insight (c : InsightDump)
deriving DecidableEq, Repr

/-- Shallow embedding of the `ContextItem` dataclass.  `token_count` is
always populated (the dataclass fills it in `__post_init__`), so it is a
plain `Nat` here. -/
structure ContextItem where
  id : String
  type : String
  content : CtxContent
  priority : Int
  token_count : Nat
deriving DecidableEq, Repr

/-- Sum of the token counts of a list of items, as computed by
`sum(item.token_count or 0 for item in self.items)`. -/
def totalTokens (items : List ContextItem) : Nat :=
  items.foldr (fun i acc => i.token_count + acc) 0

theorem totalTokens_nil : totalTokens [] = 0 := rfl

theorem totalTokens_append (l₁ l₂ : List ContextItem) :
    totalTokens (l₁ ++ l₂) = totalTokens l₁ + totalTokens l₂ := by
  induction l₁ with
  | nil => simp [totalTokens]
  | cons x xs ih =>
      simp [totalTokens, List.foldr_cons] at *
      omega

theorem totalTokens_dropLast_add (items : List ContextItem) (h : items ≠ []) :
    totalTokens items.dropLast + (items.getLast h).token_count = totalTokens items := by
  conv_rhs => rw [← List.dropLast_append_getLast h]
  rw [totalTokens_append]
  simp [totalTokens]

/-! ### `ContextBuilder.truncate_to_fit`

The Python loop
```
while current_tokens > max_tokens and self.items:
    removed_item = self.items.pop()
    current_tokens -= removed_item.token_count or 0
```
pops one item per iteration, so it performs at most `len(items)`
iterations; the loop is embedded with that length as structural fuel. -/

/-- The `while` loop of `truncate_to_fit`: drop the last item while the
running total exceeds the limit and the list is non-empty. -/
def truncateLoop : Nat → Nat → List ContextItem → List ContextItem
  | 0, _, items => items
  | fuel + 1, max_tokens, items =>
      if max_tokens < totalTokens items ∧ items ≠ [] then
        truncateLoop fuel max_tokens items.dropLast
      else items

/-- Shallow embedding of `ContextBuilder.truncate_to_fit`.  Note the two
early returns: `if not max_tokens` (falsy 0) and the within-limit check. -/
def truncate_to_fit (max_tokens : Nat) (items : List ContextItem) :
    List ContextItem :=
  if max_tokens = 0 then items
  else if totalTokens items ≤ max_tokens then items
  else truncateLoop items.length max_tokens items

theorem truncateLoop_le (max_tokens : Nat) :
    ∀ (fuel : Nat) (items : List ContextItem), items.length ≤ fuel →
      totalTokens (truncateLoop fuel max_tokens items) ≤ max_tokens := by
  intro fuel
  induction fuel with
  | zero =>
      intro items h
      have : items = [] := List.length_eq_zero.mp (Nat.le_zero.mp h)
      subst this
      exact Nat.zero_le _
  | succ n ih =>
      intro items h
      rw [truncateLoop]
      by_cases hc : max_tokens < totalTokens items ∧ items ≠ []
      · rw [if_pos hc]
        apply ih
        have := List.length_dropLast items
        have hpos : 0 < items.length := List.length_pos.mpr hc.2
        omega
      · rw [if_neg hc]
        push_neg at hc
        by_cases hnil : items = []
        · subst hnil
          exact Nat.zero_le _
        · exact Nat.not_lt.mp (fun hlt => hnil (hc hlt))

theorem truncateLoop_take (max_tokens : Nat) :
    ∀ (fuel : Nat) (items : List ContextItem),
      ∃ k, truncateLoop fuel max_tokens items = items.take k := by
  intro fuel
  induction fuel with
  | zero =>
      intro items
      exact ⟨items.length, (List.take_length items).symm⟩
  | succ n ih =>
      intro items
      rw [truncateLoop]
      by_cases hc : max_tokens < totalTokens items ∧ items ≠ []
      · rw [if_pos hc]
        obtain ⟨k, hk⟩ := ih items.dropLast
        refine ⟨min k (items.length - 1), ?_⟩
        rw [hk, List.dropLast_eq_take, List.take_take]
      · rw [if_neg hc]
        exact ⟨items.length, (List.take_length items).symm⟩

/-! ### `ContextBuilder.remove_duplicates`

The Python method walks the item list with a `seen_ids` set, keeping an
item only when its id has not been seen yet. -/

/-- The loop of `remove_duplicates`, with the `seen_ids` set made explicit
as a list of ids already encountered. -/
def removeDupsAux (seen : List String) : List ContextItem → List ContextItem
  | [] => []
  | x :: xs =>
      if x.id ∈ seen then removeDupsAux seen xs
      else x :: removeDupsAux (x.id :: seen) xs

/-- Shallow embedding of `ContextBuilder.remove_duplicates`. -/
def remove_duplicates (items : List ContextItem) : List ContextItem :=
  removeDupsAux [] items

theorem removeDupsAux_sublist (l : List ContextItem) :
    ∀ seen, (removeDupsAux seen l).Sublist l := by
  induction l with
  | nil => intro seen; simp [removeDupsAux]
  | cons x xs ih =>
      intro seen
      rw [removeDupsAux]
      by_cases h : x.id ∈ seen
      · rw [if_pos h]
        exact (ih seen).cons x
      · rw [if_neg h]
        exact (ih (x.id :: seen)).cons₂ x

theorem removeDupsAux_not_seen (l : List ContextItem) :
    ∀ seen, ∀ y ∈ removeDupsAux seen l, y.id ∉ seen := by
  induction l with
  | nil => intro seen y hy; simp [removeDupsAux] at hy
  | cons x xs ih =>
      intro seen y hy
      rw [removeDupsAux] at hy
      by_cases h : x.id ∈ seen
      · rw [if_pos h] at hy
        exact ih seen y hy
      · rw [if_neg h] at hy
        rcases List.mem_cons.mp hy with rfl | hy
        · exact h
        · have := ih (x.id :: seen) y hy
          exact fun hmem => this (List.mem_cons_of_mem _ hmem)

theorem removeDupsAux_nodup_ids (l : List ContextItem) :
    ∀ seen, ((removeDupsAux seen l).map ContextItem.id).Nodup := by
  induction l with
  | nil => intro seen; simp [removeDupsAux]
  | cons x xs ih =>
      intro seen
      rw [removeDupsAux]
      by_cases h : x.id ∈ seen
      · rw [if_pos h]
        exact ih seen
      · rw [if_neg h]
        rw [List.map_cons, List.nodup_cons]
        constructor
        · intro hmem
          obtain ⟨y, hy, hyid⟩ := List.mem_map.mp hmem
          exact removeDupsAux_not_seen xs (x.id :: seen) y hy (hyid ▸ List.mem_cons_self _ _)
        · exact ih (x.id :: seen)

theorem removeDupsAux_keeps_first (pre : List ContextItem) :
    ∀ (seen : List String) (x : ContextItem) (post : List ContextItem),
      (∀ z ∈ pre, z.id ≠ x.id) → x.id ∉ seen →
      x ∈ removeDupsAux seen (pre ++ x :: post) := by
  induction pre with
  | nil =>
      intro seen x post _ hseen
      rw [List.nil_append, removeDupsAux, if_neg hseen]
      exact List.mem_cons_self _ _
  | cons z zs ih =>
      intro seen x post hpre hseen
      rw [List.cons_append, removeDupsAux]
      by_cases h : z.id ∈ seen
      · rw [if_pos h]
        exact ih seen x post (fun w hw => hpre w (List.mem_cons_of_mem _ hw)) hseen
      · rw [if_neg h]
        refine List.mem_cons_of_mem _ ?_
        refine ih (z.id :: seen) x post (fun w hw => hpre w (List.mem_cons_of_mem _ hw)) ?_
        intro hmem
        rcases List.mem_cons.mp hmem with heq | hmem'
        · exact hpre z (List.mem_cons_self _ _) heq.symm
        · exact hseen hmem'

theorem removeDupsAux_covers (l : List ContextItem) :
    ∀ (seen : List String) (x : ContextItem), x ∈ l → x.id ∉ seen →
      ∃ y ∈ removeDupsAux seen l, y.id = x.id := by
  induction l with
  | nil => intro seen x hx; simp at hx
  | cons z zs ih =>
      intro seen x hx hseen
      rw [removeDupsAux]
      by_cases h : z.id ∈ seen
      · rw [if_pos h]
        rcases List.mem_cons.mp hx with heq | hx'
        · exact absurd h (heq ▸ hseen)
        · exact ih seen x hx' hseen
      · rw [if_neg h]
        rcases List.mem_cons.mp hx with heq | hx'
        · exact ⟨z, List.mem_cons_self _ _, (congrArg ContextItem.id heq).symm⟩
        · by_cases hid : x.id = z.id
          · exact ⟨z, List.mem_cons_self _ _, hid.symm⟩
          · obtain ⟨y, hy, hyid⟩ := ih (z.id :: seen) x hx'
              (by
                intro hmem
                rcases List.mem_cons.mp hmem with heq | hmem'
                · exact hid heq
                · exact hseen hmem')
            exact ⟨y, List.mem_cons_of_mem _ hy, hyid⟩

/-! ### Domain records seen by the context builder -/

/-- A stored source insight row (`source_insight` table). -/
structure CInsight where
  id : String
  insight_type : String
  content : String
deriving DecidableEq, Repr

/-- A stored source row as the context builder sees it. -/
structure CSource where
  id : String
  title : Option String
  full_text : Option String
  insights : List CInsight
deriving DecidableEq, Repr

/-- A stored note row as the context builder sees it. -/
structure CNote where
  id : String
  title : Option String
  content : Option String
deriving DecidableEq, Repr

/-- A stored notebook row together with its source and note references. -/
structure CNotebook where
  id : String
  sourceIds : List String
  noteIds : List String
deriving DecidableEq, Repr

/-- The database as seen by the context builder, with lookups modelled as
list searches. -/
structure CtxStore where
  sources : List CSource
  notes : List CNote
  notebooks : List CNotebook
deriving Repr

/-- Insight dump used both for `insight.model_dump()` and for the insight
content dict assembled in `_add_source_context`. -/
def mkInsightDump (s : CSource) (i : CInsight) : InsightDump :=
  { id := i.id, source_id := s.id, insight_type := i.insight_type,
    content := i.content }

/-- Shallow embedding of `Source.get_context`: the `"long"` dict carries a
`full_text` key, the `"short"` dict omits it. -/
def sourceGetContext (s : CSource) (context_size : String) : SourceContext :=
  if context_size = "long" then
    { id := s.id, title := s.title, insights := s.insights.map (mkInsightDump s),
      full_text := some s.full_text }
  else
    { id := s.id, title := s.title, insights := s.insights.map (mkInsightDump s),
      full_text := none }

/-- Python string slice `s[:n]`. -/
def pySlice (s : String) (n : Nat) : String :=
  String.mk (s.data.take n)

/-- Shallow embedding of `Note.get_context`: `"long"` keeps the whole
content, `"short"` keeps `content[:100]` (and `None` when content is
falsy). -/
def noteGetContext (n : CNote) (context_size : String) : NoteContext :=
  if context_size = "long" then
    { id := n.id, title := n.title, content := n.content }
  else
    { id := n.id, title := n.title,
      content :=
        match n.content with
        | none => none
        | some c => if c = "" then none else some (pySlice c 100) }

/-- Python test `needle in hay` on character lists. -/
def charsContain (needle : List Char) : List Char → Bool
  | [] => needle.isEmpty
  | c :: rest => needle.isPrefixOf (c :: rest) || charsContain needle rest

/-- Python substring test `needle in hay`. -/
def strContains (hay needle : String) : Bool :=
  charsContain needle.data hay.data

/-- Python test `s.startswith(pre)`. -/
def strStartsWith (s pre : String) : Bool :=
  pre.data.isPrefixOf s.data

/-- Shallow embedding of `ContextBuilder._add_source_context` with the
default priority weights.  `tokenOf` is the token-counting oracle used by
`ContextItem.__post_init__`. -/
def add_source_context (tokenOf : CtxContent → Nat) (st : CtxStore)
    (include_insights : Bool) (items : List ContextItem)
    (source_id inclusion_level : String) : List ContextItem :=
  if inclusion_level = "not in" then items
  else
    let full_source_id :=
      if strStartsWith source_id "source:" then source_id
      else "source:" ++ source_id
    match st.sources.find? (fun s => s.id == full_source_id) with
    | none => items
    | some s =>
        let context_size :=
          if strContains inclusion_level "full content" then "long" else "short"
        let source_context := sourceGetContext s context_size
        let items1 := items ++
          [{ id := s.id, type := "source", content := .src source_context,
             priority := 100, token_count := tokenOf (.src source_context) }]
        if include_insights && strContains inclusion_level "insights" then
          items1 ++ s.insights.map (fun i =>
            { id := i.id, type := "insight", content := .insight (mkInsightDump s i),
              priority := 75, token_count := tokenOf (.insight (mkInsightDump s i)) })
        else items1

/-- Shallow embedding of `ContextBuilder._add_note_context` with the
default priority weights. -/
def add_note_context (tokenOf : CtxContent → Nat) (st : CtxStore)
    (items : List ContextItem) (note_id inclusion_level : String) :
    List ContextItem :=
  if inclusion_level = "not in" then items
  else
    let full_note_id :=
      if strStartsWith note_id "note:" then note_id else "note:" ++ note_id
    match st.notes.find? (fun n => n.id == full_note_id) with
    | none => items
    | some n =>
        let context_size :=
          if strContains inclusion_level "full content" then "long" else "short"
        let note_context := noteGetContext n context_size
        items ++
          [{ id := n.id, type := "note", content := .note note_context,
             priority := 50, token_count := tokenOf (.note note_context) }]

/-- Shallow embedding of `ContextBuilder._add_notebook_context` in the
default-configuration case (empty per-item inclusion maps): every source
of the notebook is added with inclusion level `"insights"` and, when notes
are included, every note is added with inclusion level `"full content"`. -/
def add_notebook_context (tokenOf : CtxContent → Nat) (st : CtxStore)
    (include_insights include_notes : Bool) (items : List ContextItem)
    (nb : CNotebook) : List ContextItem :=
  let items1 := nb.sourceIds.foldl
    (fun acc sid => add_source_context tokenOf st include_insights acc sid "insights")
    items
  if include_notes then
    nb.noteIds.foldl
      (fun acc nid => add_note_context tokenOf st acc nid "full content") items1
  else items1

/-- Stable insertion of an item into a priority-descending list: the item
goes after every earlier item of greater or equal priority. -/
def insertByPriority (x : ContextItem) : List ContextItem → List ContextItem
  | [] => [x]
  | y :: ys =>
      if y.priority ≤ x.priority then x :: y :: ys
      else y :: insertByPriority x ys

/-- Shallow embedding of `ContextBuilder.prioritize`: Python's
`sort(key=priority, reverse=True)` is a stable descending sort, modelled
here as a stable insertion sort (extensionally the same function). -/
def prioritize (items : List ContextItem) : List ContextItem :=
  items.foldr insertByPriority []

/-- The response assembled by `ContextBuilder._format_response`, restricted
to the fields the claims inspect. -/
structure BuildResponse where
  sources : List CtxContent
  notes : List CtxContent
  insights : List CtxContent
  total_tokens : Nat
  total_items : Nat
deriving DecidableEq, Repr

/-- Shallow embedding of `ContextBuilder._format_response`: group item
contents by item type and report token and item totals. -/
def format_response (items : List ContextItem) : BuildResponse :=
  { sources := (items.filter (fun i => i.type == "source")).map (fun i => i.content),
    notes := (items.filter (fun i => i.type == "note")).map (fun i => i.content),
    insights := (items.filter (fun i => i.type == "insight")).map (fun i => i.content),
    total_tokens := totalTokens items,
    total_items := items.length }

/-- Shallow embedding of `ContextBuilder.build` for a builder constructed
with only a `notebook_id` (default context configuration).  Returns `none`
when the notebook lookup fails (the `NotFoundError` path). -/
def build_notebook_default (tokenOf : CtxContent → Nat) (st : CtxStore)
    (include_insights include_notes : Bool) (max_tokens : Option Nat)
    (notebook_id : String) : Option BuildResponse :=
  match st.notebooks.find? (fun nb => nb.id == notebook_id) with
  | none => none
  | some nb =>
      let items := add_notebook_context tokenOf st include_insights include_notes [] nb
      let items := remove_duplicates items
      let items := prioritize items
      let items :=
        match max_tokens with
        | some m => truncate_to_fit m items
        | none => items
      some (format_response items)

/-! ### Exception model for the embedding path

Python exceptions relevant to `embed_chunk_command`, keyed by class. -/

inductive PyExcKind where
  | runtimeError
  | connectionError
  | timeoutError
  | valueError
  | otherError
deriving DecidableEq, Repr

/-- A raised Python exception: its class together with its message. -/
structure PyExc where
  kind : PyExcKind
  msg : String
deriving DecidableEq, Repr

/-- Backoff shapes of the declarative retry policy of the job substrate. -/
inductive WaitStrategy where
  | exponential_jitter
  | fixed
deriving DecidableEq, Repr

/-- The declarative per-command retry policy accepted by the job
substrate (`retry={...}` on the `@command` decorator). -/
structure RetryPolicy where
  max_attempts : Nat
  wait_strategy : WaitStrategy
  wait_min : Nat
  wait_max : Nat
  retry_on : List PyExcKind
deriving DecidableEq, Repr

/-- The retry policy attached to the `embed_chunk` command in
`embedding_commands.py`. -/
def embedChunkRetryPolicy : RetryPolicy :=
  { max_attempts := 15,
    wait_strategy := .exponential_jitter,
    wait_min := 1,
    wait_max := 120,
    retry_on := [.runtimeError, .connectionError, .timeoutError] }

/-- Output model of `embed_chunk_command` (`EmbedChunkOutput`). -/
structure EmbedChunkOutput where
  success : Bool
  source_id : String
  chunk_index : Nat
  error_message : Option String
deriving DecidableEq, Repr

/-- Input model of `embed_chunk_command` (`EmbedChunkInput`). -/
structure EmbedChunkInput where
  source_id : String
  chunk_index : Nat
  chunk_text : String
deriving DecidableEq, Repr

/-- Shallow embedding of `embed_chunk_command`.  The oracle `outcome`
says whether the body (model lookup, provider call, database insert)
raises, and which exception; `none` means every step succeeds.  The
`try/except` ladder re-raises `RuntimeError`, `ConnectionError` and
`TimeoutError` and converts every other exception into a structured
failure output. -/
def embed_chunk_command (input : EmbedChunkInput) (outcome : Option PyExc) :
    Except PyExc EmbedChunkOutput :=
  match outcome with
  | none =>
      .ok { success := true, source_id := input.source_id,
            chunk_index := input.chunk_index, error_message := none }
  | some e =>
      match e.kind with
      | .runtimeError => .error e
      | .connectionError => .error e
      | .timeoutError => .error e
      | _ =>
          .ok { success := false, source_id := input.source_id,
                chunk_index := input.chunk_index, error_message := some e.msg }

/-- Modelled from the spec: the dispatch loop of the external job
substrate (`surreal_commands`), which is not part of this repository.
Per the spec it re-runs a command body, up to `max_attempts` attempts in
total, as long as the body raises an exception whose kind is in the
policy's `retry_on` set; any normal return, any non-retryable exception,
or exhaustion of the attempt budget stops the loop.  `body n` is the
outcome of attempt number `n` (0-based); the result pairs the number of
attempts actually made with the final outcome. -/
def dispatchAttempts (retry_on : List PyExcKind)
    (body : Nat → Except PyExc EmbedChunkOutput) :
    Nat → Nat → Nat × Except PyExc EmbedChunkOutput
  | attempt, 0 => (attempt, body attempt)
  | attempt, remaining + 1 =>
      match body attempt with
      | .ok out => (attempt + 1, .ok out)
      | .error e =>
          if remaining ≠ 0 ∧ e.kind ∈ retry_on then
            dispatchAttempts retry_on body (attempt + 1) remaining
          else (attempt + 1, .error e)

/-- Modelled from the spec: dispatching one command under a retry
policy. -/
def dispatch (policy : RetryPolicy)
    (body : Nat → Except PyExc EmbedChunkOutput) :
    Nat × Except PyExc EmbedChunkOutput :=
  dispatchAttempts policy.retry_on body 0 policy.max_attempts

/-! ### Store model for the embedding commands -/

/-- A `source_embedding` row (one Chunk Vector Record). -/
structure ChunkRecord where
  source : String
  order : Nat
  content : String
  embedding : Option (List Int)
deriving DecidableEq, Repr

/-- A `source` row as the embedding commands see it. -/
structure SourceRow where
  id : String
  full_text : Option String
deriving DecidableEq, Repr

/-- A `note` row as the embedding commands see it. -/
structure NoteRow where
  id : String
  content : Option String
  embedding : Option (List Int)
deriving DecidableEq, Repr

/-- A `source_insight` row as the embedding commands see it
(`content` is a required field of the `SourceInsight` model). -/
structure InsightRow where
  id : String
  content : String
  embedding : Option (List Int)
deriving DecidableEq, Repr

/-- The database as the embedding commands see it. -/
structure Store where
  sources : List SourceRow
  chunks : List ChunkRecord
  notes : List NoteRow
  insights : List InsightRow
deriving Repr

/-- Python truthiness of `source.full_text` (`None` and `""` are falsy). -/
def fullTextFalsy : Option String → Bool
  | none => true
  | some t => t.isEmpty

/-- Output model of `vectorize_source_command` (`VectorizeSourceOutput`),
without the wall-clock `processing_time` field. -/
structure VectorizeSourceOutput where
  success : Bool
  source_id : String
  total_chunks : Nat
  jobs_submitted : Nat
  error_message : Option String
deriving DecidableEq, Repr

/-- Shallow embedding of `vectorize_source_command`.  `split` abstracts
the pure `split_text` function (a `RecursiveCharacterTextSplitter` from an
external library); `submitOk idx` says whether `submit_command` succeeds
for chunk `idx` (per-chunk submission failures are caught and skipped).
Returns the command output, the store after the command itself ran (the
deletion of existing chunk records is the only store effect the command
performs directly), and the list of `(chunk_index, chunk_text)` jobs that
were successfully submitted. -/
def vectorize_source_command (split : String → List String)
    (submitOk : Nat → Bool) (st : Store) (source_id : String) :
    VectorizeSourceOutput × Store × List (Nat × String) :=
  match st.sources.find? (fun s => s.id == source_id) with
  | none =>
      ({ success := false, source_id := source_id, total_chunks := 0,
         jobs_submitted := 0,
         error_message := some ("Source " ++ source_id ++ " not found") },
       st, [])
  | some src =>
      if fullTextFalsy src.full_text then
        ({ success := false, source_id := source_id, total_chunks := 0,
           jobs_submitted := 0,
           error_message := some ("Source " ++ source_id ++ " has no text to vectorize") },
         st, [])
      else
        let text := src.full_text.getD ""
        let stDel : Store :=
          { st with chunks := st.chunks.filter (fun c => c.source ≠ source_id) }
        let chunks := split text
        if chunks.length = 0 then
          ({ success := false, source_id := source_id, total_chunks := 0,
             jobs_submitted := 0,
             error_message := some "No chunks created after splitting text" },
           stDel, [])
        else
          let jobs := chunks.enum.filter (fun p => submitOk p.1)
          ({ success := true, source_id := source_id,
             total_chunks := chunks.length, jobs_submitted := jobs.length,
             error_message := none },
           stDel, jobs)

/-- Effect of every submitted `embed_chunk` job completing successfully:
each job inserts one chunk record carrying the provider embedding of its
text (`embed` abstracts the embedding model). -/
def runEmbedChunkJobs (embed : String → List Int) (source_id : String)
    (jobs : List (Nat × String)) (st : Store) : Store :=
  { st with
    chunks := st.chunks ++ jobs.map (fun p =>
      { source := source_id, order := p.1, content := p.2,
        embedding := some (embed p.2) }) }

/-- One vectorization run in which every chunk job is submitted
successfully and then runs to completion. -/
def vectorizeAndComplete (split : String → List String)
    (embed : String → List Int) (st : Store) (source_id : String) : Store :=
  let r := vectorize_source_command split (fun _ => true) st source_id
  runEmbedChunkJobs embed source_id r.2.2 r.2.1

/-- The chunk records currently stored for a given source. -/
def chunksFor (source_id : String) (st : Store) : List ChunkRecord :=
  st.chunks.filter (fun c => c.source == source_id)

/-! ### `collect_items_for_rebuild` and `rebuild_embeddings_command` -/

/-- The SurrealQL condition `embedding != none AND array::len(embedding) > 0`. -/
def hasNonEmptyEmbedding : Option (List Int) → Bool
  | none => false
  | some e => decide (0 < e.length)

/-- The id lists returned by `collect_items_for_rebuild`. -/
structure CollectedItems where
  sources : List String
  notes : List String
  insights : List String
deriving DecidableEq, Repr

/-- Shallow embedding of `collect_items_for_rebuild`.  The SurrealQL
queries are modelled as list filters over the store: `array::distinct`
keeps one occurrence of each id, `!= none` is an `isSome` test, and
`mode != "existing"` takes the `"all"` branch exactly as the Python
`if/else` does. -/
def collect_items_for_rebuild (mode : String)
    (include_sources include_notes include_insights : Bool) (st : Store) :
    CollectedItems :=
  { sources :=
      if include_sources then
        if mode = "existing" then
          ((st.chunks.filter (fun c => hasNonEmptyEmbedding c.embedding)).map
            (fun c => c.source)).dedup
        else
          (st.sources.filter (fun s => s.full_text.isSome)).map (fun s => s.id)
      else [],
    notes :=
      if include_notes then
        if mode = "existing" then
          (st.notes.filter (fun n => hasNonEmptyEmbedding n.embedding)).map
            (fun n => n.id)
        else
          (st.notes.filter (fun n => n.content.isSome)).map (fun n => n.id)
      else [],
    insights :=
      if include_insights then
        if mode = "existing" then
          (st.insights.filter (fun i => hasNonEmptyEmbedding i.embedding)).map
            (fun i => i.id)
        else
          st.insights.map (fun i => i.id)
      else [] }

/-- Outcome of processing one collected item inside the rebuild loops:
the item id no longer resolves, the re-embedding raises, or it succeeds. -/
inductive ItemOutcome where
  | notFound
  | procError
  | ok
deriving DecidableEq, Repr

/-- One of the three per-type loops of `rebuild_embeddings_command`:
returns `(processed, failed)`.  A `notFound` item increments the failure
counter and `continue`s; a raised exception is caught, increments the
failure counter and the loop moves on; only a success increments the
processed counter. -/
def processLoop (outcome : String → ItemOutcome) (ids : List String) :
    Nat × Nat :=
  ids.foldl
    (fun acc id =>
      match outcome id with
      | .ok => (acc.1 + 1, acc.2)
      | _ => (acc.1, acc.2 + 1))
    (0, 0)

/-- Output model of `rebuild_embeddings_command`
(`RebuildEmbeddingsOutput`), without the wall-clock `processing_time`. -/
structure RebuildEmbeddingsOutput where
  success : Bool
  total_items : Nat
  processed_items : Nat
  failed_items : Nat
  sources_processed : Nat
  notes_processed : Nat
  insights_processed : Nat
  error_message : Option String
deriving DecidableEq, Repr

/-- Shallow embedding of `rebuild_embeddings_command`.  `modelAvailable`
is the `model_manager.get_embedding_model()` check; `srcOut`, `noteOut`
and `insOut` are the per-item processing oracles of the three loops. -/
def rebuild_embeddings_command (modelAvailable : Bool) (mode : String)
    (include_sources include_notes include_insights : Bool) (st : Store)
    (srcOut noteOut insOut : String → ItemOutcome) :
    RebuildEmbeddingsOutput :=
  if !modelAvailable then
    { success := false, total_items := 0, processed_items := 0,
      failed_items := 0, sources_processed := 0, notes_processed := 0,
      insights_processed := 0,
      error_message := some "No embedding model configured. Please configure one in the Models section." }
  else
    let items := collect_items_for_rebuild mode include_sources include_notes
      include_insights st
    let total_items :=
      items.sources.length + items.notes.length + items.insights.length
    if total_items = 0 then
      { success := true, total_items := 0, processed_items := 0,
        failed_items := 0, sources_processed := 0, notes_processed := 0,
        insights_processed := 0, error_message := none }
    else
      let sres := processLoop srcOut items.sources
      let nres := processLoop noteOut items.notes
      let ires := processLoop insOut items.insights
      { success := true, total_items := total_items,
        processed_items := sres.1 + nres.1 + ires.1,
        failed_items := sres.2 + nres.2 + ires.2,
        sources_processed := sres.1, notes_processed := nres.1,
        insights_processed := ires.1, error_message := none }

theorem processLoop_total (outcome : String → ItemOutcome) :
    ∀ (ids : List String) (p f : Nat),
      (ids.foldl
        (fun acc id =>
          match outcome id with
          | .ok => (acc.1 + 1, acc.2)
          | _ => (acc.1, acc.2 + 1))
        (p, f)).1 +
      (ids.foldl
        (fun acc id =>
          match outcome id with
          | .ok => (acc.1 + 1, acc.2)
          | _ => (acc.1, acc.2 + 1))
        (p, f)).2 = p + f + ids.length := by
  intro ids
  induction ids with
  | nil => intro p f; simp
  | cons x xs ih =>
      intro p f
      cases h : outcome x with
      | ok =>
          have h2 := ih (p + 1) f
          simp only [List.foldl_cons, h, List.length_cons]
          omega
      | notFound =>
          have h2 := ih p (f + 1)
          simp only [List.foldl_cons, h, List.length_cons]
          omega
      | procError =>
          have h2 := ih p (f + 1)
          simp only [List.foldl_cons, h, List.length_cons]
          omega

theorem processLoop_sum (outcome : String → ItemOutcome) (ids : List String) :
    (processLoop outcome ids).1 + (processLoop outcome ids).2 = ids.length := by
  have := processLoop_total outcome ids 0 0
  simpa [processLoop] using this

/-! ### Concrete sample data used by the claim instances -/

/-- A note content of 101 characters, longer than the 100-character cut of
the short note context. -/
def c5LongContent : String := String.mk (List.replicate 101 'a')

/-- Store with one notebook holding 2 sources and 1 note. -/
def c5Store : CtxStore :=
  { sources := [{ id := "source:s1", title := some "S1", full_text := some "text one", insights := [] },
                { id := "source:s2", title := some "S2", full_text := some "text two", insights := [] }],
    notes := [{ id := "note:n1", title := some "N1", content := some c5LongContent }],
    notebooks := [{ id := "notebook:nb1",
                    sourceIds := ["source:s1", "source:s2"],
                    noteIds := ["note:n1"] }] }

/-- The note row of `c5Store`. -/
def c5Note : CNote :=
  { id := "note:n1", title := some "N1", content := some c5LongContent }

/-- Priority-100 item of cost 100 for the truncation scenario. -/
def c8ItemA : ContextItem :=
  { id := "source:a", type := "source",
    content := .src { id := "source:a", title := none, insights := [], full_text := none },
    priority := 100, token_count := 100 }

/-- Priority-75 item of cost 80 for the truncation scenario. -/
def c8ItemB : ContextItem :=
  { id := "insight:b", type := "insight",
    content := .insight { id := "insight:b", source_id := "source:a", insight_type := "summary", content := "b" },
    priority := 75, token_count := 80 }

/-- Priority-50 item of cost 50 for the truncation scenario. -/
def c8ItemC : ContextItem :=
  { id := "note:c", type := "note",
    content := .note { id := "note:c", title := none, content := some "c" },
    priority := 50, token_count := 50 }

/-- A single highest-priority item whose cost exceeds the 150-token
ceiling of the truncation counterexample. -/
def cBigItem : ContextItem :=
  { id := "source:big", type := "source",
    content := .src { id := "source:big", title := none, insights := [], full_text := none },
    priority := 100, token_count := 200 }

/-! ### Helper lemmas about `truncate_to_fit` -/

theorem truncate_to_fit_le (max_tokens : Nat) (items : List ContextItem)
    (h : 0 < max_tokens) :
    totalTokens (truncate_to_fit max_tokens items) ≤ max_tokens := by
  rw [truncate_to_fit, if_neg (by omega : ¬max_tokens = 0)]
  by_cases hle : totalTokens items ≤ max_tokens
  · rw [if_pos hle]
    exact hle
  · rw [if_neg hle]
    exact truncateLoop_le max_tokens items.length items le_rfl

theorem truncate_to_fit_take (max_tokens : Nat) (items : List ContextItem) :
    ∃ k, truncate_to_fit max_tokens items = items.take k := by
  rw [truncate_to_fit]
  by_cases h0 : max_tokens = 0
  · rw [if_pos h0]
    exact ⟨items.length, (List.take_length items).symm⟩
  · rw [if_neg h0]
    by_cases hle : totalTokens items ≤ max_tokens
    · rw [if_pos hle]
      exact ⟨items.length, (List.take_length items).symm⟩
    · rw [if_neg hle]
      exact truncateLoop_take max_tokens items.length items

theorem truncate_single_over (max_tokens : Nat) (x : ContextItem)
    (h0 : 0 < max_tokens) (hover : max_tokens < x.token_count) :
    truncate_to_fit max_tokens [x] = [] := by
  have htot : totalTokens [x] = x.token_count := by simp [totalTokens]
  rw [truncate_to_fit, if_neg (by omega : ¬max_tokens = 0),
    if_neg (by omega : ¬totalTokens [x] ≤ max_tokens)]
  show truncateLoop 1 max_tokens [x] = []
  rw [show (1 : Nat) = 0 + 1 from rfl, truncateLoop,
    if_pos ⟨by omega, by simp⟩]
  rfl

/-! ### Claims C4, C8 and C9: truncation -/

/-- C9: for every item list and every positive token ceiling, the summed
token cost of the items remaining after `truncate_to_fit` is at most the
ceiling — the loop keeps popping whole items, including the final
highest-priority one, until the total fits or the list is empty. -/
theorem c9_truncate_within_ceiling (max_tokens : Nat)
    (items : List ContextItem) (h : 0 < max_tokens) :
    totalTokens (truncate_to_fit max_tokens items) ≤ max_tokens :=
  truncate_to_fit_le max_tokens items h

/-- Witness for C9 at the concrete ceiling 150 and a single item of cost
200. -/
theorem c9_truncate_within_ceiling_witness :
    0 < 150 ∧ totalTokens (truncate_to_fit 150 [cBigItem]) ≤ 150 :=
  ⟨by decide, c9_truncate_within_ceiling 150 [cBigItem] (by decide)⟩

/-- C4 counterexample: with a positive ceiling of 150 and a single
highest-priority item of cost 200, `truncate_to_fit` does not keep the
item — it drops it and returns the empty list, so the result neither
retains the highest-priority item nor exceeds the ceiling. -/
theorem c4_counterexample :
    0 < (150 : Nat) ∧ (150 : Nat) < cBigItem.token_count ∧
    truncate_to_fit 150 [cBigItem] = [] ∧
    cBigItem ∉ truncate_to_fit 150 [cBigItem] := by
  exact ⟨by decide, by decide, by decide, by decide⟩

/-- C4 (amended): truncation only drops whole items from the low-priority
end — the result is always a prefix of the priority-sorted input — but
when the ceiling is smaller than the single highest-priority item's cost,
that item is dropped as well: the result becomes empty, and the
post-truncation total never exceeds a positive ceiling. -/
theorem c4_truncation_drops_whole_items (max_tokens : Nat)
    (items : List ContextItem) (h : 0 < max_tokens) :
    (∃ k, truncate_to_fit max_tokens items = items.take k) ∧
    totalTokens (truncate_to_fit max_tokens items) ≤ max_tokens ∧
    ∀ x : ContextItem, items = [x] → max_tokens < x.token_count →
      truncate_to_fit max_tokens items = [] := by
  refine ⟨truncate_to_fit_take max_tokens items,
    truncate_to_fit_le max_tokens items h, ?_⟩
  intro x hx hover
  subst hx
  exact truncate_single_over max_tokens x h hover

/-- Witness for the amended C4 at ceiling 150 and the single item of cost
200. -/
theorem c4_truncation_drops_whole_items_witness :
    0 < (150 : Nat) ∧
    ((∃ k, truncate_to_fit 150 [cBigItem] = [cBigItem].take k) ∧
      totalTokens (truncate_to_fit 150 [cBigItem]) ≤ 150 ∧
      ∀ x : ContextItem, [cBigItem] = [x] → 150 < x.token_count →
        truncate_to_fit 150 [cBigItem] = []) :=
  ⟨by decide, c4_truncation_drops_whole_items 150 [cBigItem] (by decide)⟩

/-- C8: on the priority-sorted list with token costs 100, 80, 50 at
priorities 100, 75, 50 and ceiling 150, truncation pops from the end:
first the cost-50 item (total 230, then 180, still over 150), then the
cost-80 item (total 100, within the ceiling), keeping exactly the single
priority-100 item. -/
theorem c8_truncation_scenario :
    totalTokens [c8ItemA, c8ItemB, c8ItemC] = 230 ∧
    ([c8ItemA, c8ItemB, c8ItemC].dropLast = [c8ItemA, c8ItemB] ∧
      totalTokens [c8ItemA, c8ItemB] = 180 ∧ 150 < (180 : Nat)) ∧
    ([c8ItemA, c8ItemB].dropLast = [c8ItemA] ∧
      totalTokens [c8ItemA] = 100 ∧ (100 : Nat) ≤ 150) ∧
    truncate_to_fit 150 [c8ItemA, c8ItemB, c8ItemC] = [c8ItemA] := by
  exact ⟨by decide, ⟨by decide, by decide, by decide⟩,
    ⟨by decide, by decide, by decide⟩, by decide⟩

/-! ### Claim C7: deduplication -/

/-- C7: `remove_duplicates` keys items by id and keeps the first
occurrence of each id while dropping every later duplicate, preserving
the relative order of the kept items: the result is a sublist of the
input (order preserved, only deletions), its ids are pairwise distinct,
every element of the input whose id has no earlier occurrence is kept,
and every id occurring in the input is still represented. -/
theorem c7_remove_duplicates_first_wins (l : List ContextItem) :
    (remove_duplicates l).Sublist l ∧
    ((remove_duplicates l).map ContextItem.id).Nodup ∧
    (∀ pre x post, l = pre ++ x :: post → (∀ z ∈ pre, z.id ≠ x.id) →
      x ∈ remove_duplicates l) ∧
    (∀ x ∈ l, ∃ y ∈ remove_duplicates l, y.id = x.id) := by
  refine ⟨removeDupsAux_sublist l [], removeDupsAux_nodup_ids l [], ?_, ?_⟩
  · intro pre x post hsplit hpre
    subst hsplit
    exact removeDupsAux_keeps_first pre [] x post hpre (by simp)
  · intro x hx
    exact removeDupsAux_covers l [] x hx (by simp)

/-- First of two items sharing the id `source:dup`. -/
def c7ItemA : ContextItem :=
  { id := "source:dup", type := "source",
    content := .src { id := "source:dup", title := some "direct", insights := [], full_text := none },
    priority := 100, token_count := 10 }

/-- Second item with the same id `source:dup` (the notebook-sweep copy of
the same source). -/
def c7ItemB : ContextItem :=
  { id := "source:dup", type := "source",
    content := .src { id := "source:dup", title := some "via notebook", insights := [], full_text := none },
    priority := 100, token_count := 20 }

/-- Witness for C7: the same source collected twice keeps only the first
occurrence. -/
theorem c7_remove_duplicates_first_wins_witness :
    c7ItemA ∈ remove_duplicates [c7ItemA, c7ItemB] ∧
    remove_duplicates [c7ItemA, c7ItemB] = [c7ItemA] :=
  ⟨(c7_remove_duplicates_first_wins [c7ItemA, c7ItemB]).2.2.1
      [] c7ItemA [c7ItemB] rfl (by simp),
    by decide⟩

/-! ### Claim C5: default notebook collection -/

/-- C5 (documented behaviour versus code): with no per-item inclusion
map, building context for a notebook holding 2 sources and 1 note yields
exactly 2 source entries in short detail (insights only, no `full_text`
key) and 1 note entry — but the note entry carries the note's FULL
content: the default path calls `_add_note_context(note.id, "full
content")`, so the note context equals `Note.get_context("long")`, which
differs from the short context whenever the content exceeds 100
characters.  The spec (and the code's own comment above the call) say
short detail. -/
theorem c5_notebook_default_note_detail :
    build_notebook_default (fun _ => 1) c5Store true true none "notebook:nb1" =
      some { sources := [.src { id := "source:s1", title := some "S1", insights := [], full_text := none },
                         .src { id := "source:s2", title := some "S2", insights := [], full_text := none }],
             notes := [.note (noteGetContext c5Note "long")],
             insights := [],
             total_tokens := 3, total_items := 3 } ∧
    noteGetContext c5Note "long" ≠ noteGetContext c5Note "short" ∧
    (noteGetContext c5Note "long").content = some c5LongContent ∧
    (noteGetContext c5Note "short").content = some (pySlice c5LongContent 100) := by
  exact ⟨by decide, by decide, by decide, by decide⟩

/-! ### Claims C2 and C10: vectorization orchestration -/

theorem fullTextFalsy_false (o : Option String) (text : String)
    (h : o = some text) (hne : text ≠ "") : fullTextFalsy o = false := by
  rw [h]
  show text.isEmpty = false
  cases hb : text.isEmpty
  · rfl
  · exact absurd ((String.isEmpty_iff text).mp (by simp [hb])) hne

theorem filter_ne_filter_eq (sid : String) (l : List ChunkRecord) :
    (l.filter (fun c => c.source ≠ sid)).filter (fun c => c.source == sid) = [] := by
  rw [List.filter_eq_nil_iff]
  intro a ha
  have h := List.of_mem_filter ha
  simp at h ⊢
  exact h

theorem filter_eq_map_jobs (sid : String) (embed : String → List Int)
    (jobs : List (Nat × String)) :
    ((jobs.map (fun p =>
        ({ source := sid, order := p.1, content := p.2,
           embedding := some (embed p.2) } : ChunkRecord))).filter
      (fun c => c.source == sid)) =
    jobs.map (fun p =>
      ({ source := sid, order := p.1, content := p.2,
         embedding := some (embed p.2) } : ChunkRecord)) := by
  rw [List.filter_eq_self]
  intro a ha
  obtain ⟨p, _, rfl⟩ := List.mem_map.mp ha
  simp

theorem vectorize_source_command_success (split : String → List String)
    (submitOk : Nat → Bool) (st : Store) (sid : String)
    (src : SourceRow) (text : String)
    (hfind : st.sources.find? (fun s => s.id == sid) = some src)
    (htext : src.full_text = some text) (hne : text ≠ "")
    (hchunks : split text ≠ []) :
    vectorize_source_command split submitOk st sid =
      ({ success := true, source_id := sid,
         total_chunks := (split text).length,
         jobs_submitted := ((split text).enum.filter (fun p => submitOk p.1)).length,
         error_message := none },
       { st with chunks := st.chunks.filter (fun c => c.source ≠ sid) },
       (split text).enum.filter (fun p => submitOk p.1)) := by
  have hfe : fullTextFalsy (some text) = false :=
    fullTextFalsy_false (some text) text rfl hne
  have hlen : ¬(split text).length = 0 := by
    simpa [List.length_eq_zero] using hchunks
  simp only [vectorize_source_command, hfind, htext, Option.getD_some]
  rw [if_neg (by simp [hfe]), if_neg hlen]

theorem vectorize_source_command_nochunks (split : String → List String)
    (submitOk : Nat → Bool) (st : Store) (sid : String)
    (src : SourceRow) (text : String)
    (hfind : st.sources.find? (fun s => s.id == sid) = some src)
    (htext : src.full_text = some text) (hne : text ≠ "")
    (hz : split text = []) :
    vectorize_source_command split submitOk st sid =
      ({ success := false, source_id := sid, total_chunks := 0,
         jobs_submitted := 0,
         error_message := some "No chunks created after splitting text" },
       { st with chunks := st.chunks.filter (fun c => c.source ≠ sid) },
       []) := by
  have hfe : fullTextFalsy (some text) = false :=
    fullTextFalsy_false (some text) text rfl hne
  simp only [vectorize_source_command, hfind, htext, Option.getD_some]
  rw [if_neg (by simp [hfe]), if_pos (by rw [hz]; rfl)]

theorem vectorizeAndComplete_spec (split : String → List String)
    (embed : String → List Int) (st : Store) (sid : String)
    (src : SourceRow) (text : String)
    (hfind : st.sources.find? (fun s => s.id == sid) = some src)
    (htext : src.full_text = some text) (hne : text ≠ "") :
    (vectorizeAndComplete split embed st sid).sources = st.sources ∧
    chunksFor sid (vectorizeAndComplete split embed st sid) =
      ((split text).enum).map (fun p =>
        { source := sid, order := p.1, content := p.2,
          embedding := some (embed p.2) }) := by
  by_cases hz : split text = []
  · rw [vectorizeAndComplete,
      vectorize_source_command_nochunks split (fun _ => true) st sid src text
        hfind htext hne hz]
    constructor
    · rfl
    · simp only [runEmbedChunkJobs, chunksFor, List.map_nil, List.append_nil, hz,
        List.enum_nil]
      exact filter_ne_filter_eq sid st.chunks
  · rw [vectorizeAndComplete,
      vectorize_source_command_success split (fun _ => true) st sid src text
        hfind htext hne hz]
    have hjobs : (split text).enum.filter (fun p => true) = (split text).enum :=
      List.filter_true _
    constructor
    · rfl
    · simp only [runEmbedChunkJobs, chunksFor, hjobs, List.filter_append]
      rw [filter_ne_filter_eq sid st.chunks, filter_eq_map_jobs sid embed,
        List.nil_append]

/-- C2: a vectorization run first deletes every existing chunk record of
the source and then (once every submitted chunk job completes) stores
exactly one record per chunk of the split text; hence two successive runs
on an unchanged source leave the identical record set, with equal chunk
counts, and no duplicates or stale leftovers. -/
theorem c2_vectorize_idempotent_replace (split : String → List String)
    (embed : String → List Int) (st : Store) (sid : String)
    (src : SourceRow) (text : String)
    (hfind : st.sources.find? (fun s => s.id == sid) = some src)
    (htext : src.full_text = some text) (hne : text ≠ "") :
    chunksFor sid (vectorizeAndComplete split embed st sid) =
      ((split text).enum).map (fun p =>
        { source := sid, order := p.1, content := p.2,
          embedding := some (embed p.2) }) ∧
    chunksFor sid
        (vectorizeAndComplete split embed
          (vectorizeAndComplete split embed st sid) sid) =
      chunksFor sid (vectorizeAndComplete split embed st sid) ∧
    (chunksFor sid (vectorizeAndComplete split embed st sid)).length =
      (split text).length ∧
    (chunksFor sid
        (vectorizeAndComplete split embed
          (vectorizeAndComplete split embed st sid) sid)).length =
      (split text).length := by
  obtain ⟨hsrc1, hchunks1⟩ :=
    vectorizeAndComplete_spec split embed st sid src text hfind htext hne
  have hfind1 :
      (vectorizeAndComplete split embed st sid).sources.find?
        (fun s => s.id == sid) = some src := by
    rw [hsrc1, hfind]
  obtain ⟨_, hchunks2⟩ :=
    vectorizeAndComplete_spec split embed (vectorizeAndComplete split embed st sid)
      sid src text hfind1 htext hne
  refine ⟨hchunks1, ?_, ?_, ?_⟩
  · rw [hchunks1, hchunks2]
  · rw [hchunks1]
    simp
  · rw [hchunks2]
    simp

/-- Store for the C2 witness: the source already carries a stale chunk
record, and an unrelated source has one of its own. -/
def c2Store : Store :=
  { sources := [{ id := "source:s1", full_text := some "hello" }],
    chunks := [{ source := "source:s1", order := 0, content := "stale", embedding := some [9] },
               { source := "source:s2", order := 0, content := "other", embedding := some [8] }],
    notes := [], insights := [] }

/-- Witness for C2 with a one-chunk splitter and a constant embedder. -/
theorem c2_vectorize_idempotent_replace_witness :
    chunksFor "source:s1"
        (vectorizeAndComplete (fun t => [t]) (fun _ => [1]) c2Store "source:s1") =
      (([("hello" : String)]).enum).map (fun p =>
        { source := "source:s1", order := p.1, content := p.2,
          embedding := some [1] }) ∧
    chunksFor "source:s1"
        (vectorizeAndComplete (fun t => [t]) (fun _ => [1])
          (vectorizeAndComplete (fun t => [t]) (fun _ => [1]) c2Store "source:s1")
          "source:s1") =
      chunksFor "source:s1"
        (vectorizeAndComplete (fun t => [t]) (fun _ => [1]) c2Store "source:s1") ∧
    (chunksFor "source:s1"
        (vectorizeAndComplete (fun t => [t]) (fun _ => [1]) c2Store "source:s1")).length =
      ([("hello" : String)]).length ∧
    (chunksFor "source:s1"
        (vectorizeAndComplete (fun t => [t]) (fun _ => [1])
          (vectorizeAndComplete (fun t => [t]) (fun _ => [1]) c2Store "source:s1")
          "source:s1")).length =
      ([("hello" : String)]).length :=
  c2_vectorize_idempotent_replace (fun t => [t]) (fun _ => [1]) c2Store
    "source:s1" { id := "source:s1", full_text := some "hello" } "hello"
    rfl rfl (by decide)

/-- C10: whenever the source exists, has text and splits into at least one
chunk, the orchestrator reports `success = True` with no error message,
regardless of how many per-chunk submissions fail; partial dispatch is
visible only through `jobs_submitted` versus `total_chunks`. -/
theorem c10_vectorize_success_despite_submit_failures
    (split : String → List String) (submitOk : Nat → Bool) (st : Store)
    (sid : String) (src : SourceRow) (text : String)
    (hfind : st.sources.find? (fun s => s.id == sid) = some src)
    (htext : src.full_text = some text) (hne : text ≠ "")
    (hchunks : split text ≠ []) :
    (vectorize_source_command split submitOk st sid).1 =
      { success := true, source_id := sid,
        total_chunks := (split text).length,
        jobs_submitted := ((split text).enum.filter (fun p => submitOk p.1)).length,
        error_message := none } := by
  rw [vectorize_source_command_success split submitOk st sid src text
    hfind htext hne hchunks]

/-- Witness for C10: every chunk submission fails, yet the output is a
success with `jobs_submitted = 0` and `total_chunks = 1`. -/
theorem c10_vectorize_success_despite_submit_failures_witness :
    (vectorize_source_command (fun t => [t]) (fun _ => false) c2Store "source:s1").1 =
      { success := true, source_id := "source:s1",
        total_chunks := ([("hello" : String)]).length,
        jobs_submitted := (([("hello" : String)]).enum.filter (fun _ => false)).length,
        error_message := none } :=
  c10_vectorize_success_despite_submit_failures (fun t => [t]) (fun _ => false)
    c2Store "source:s1" { id := "source:s1", full_text := some "hello" } "hello"
    rfl rfl (by decide) (by decide)

/-! ### Claim C3: rebuild item collection -/

/-- Store for the C3 instance: 3 sources with text; only `source:s1`
carries a chunk record with a non-empty embedding (the `source:s2` record
has an empty embedding vector and does not count). -/
def c3Store : Store :=
  { sources := [{ id := "source:s1", full_text := some "alpha" },
                { id := "source:s2", full_text := some "beta" },
                { id := "source:s3", full_text := some "gamma" }],
    chunks := [{ source := "source:s1", order := 0, content := "alpha", embedding := some [1, 2] },
               { source := "source:s2", order := 0, content := "beta", embedding := some [] }],
    notes := [], insights := [] }

/-- C3: `mode="existing"` selects exactly the items that currently carry
a non-empty embedding (a source iff some chunk record with a non-empty
embedding exists for it; a note or insight iff its own embedding field is
populated and non-empty), and `mode="all"` selects every source with a
populated full text (hence every item with embeddable content); in the
concrete store with 3 sources with text of which 1 is embedded,
`"existing"` collects 1 source and `"all"` collects 3. -/
theorem c3_collect_modes (st : Store) (id : String) :
    (id ∈ (collect_items_for_rebuild "existing" true true true st).sources ↔
      ∃ c ∈ st.chunks, c.source = id ∧ hasNonEmptyEmbedding c.embedding = true) ∧
    (id ∈ (collect_items_for_rebuild "existing" true true true st).notes ↔
      ∃ n ∈ st.notes, n.id = id ∧ hasNonEmptyEmbedding n.embedding = true) ∧
    (id ∈ (collect_items_for_rebuild "existing" true true true st).insights ↔
      ∃ i ∈ st.insights, i.id = id ∧ hasNonEmptyEmbedding i.embedding = true) ∧
    (id ∈ (collect_items_for_rebuild "all" true true true st).sources ↔
      ∃ s ∈ st.sources, s.id = id ∧ s.full_text.isSome = true) ∧
    (id ∈ (collect_items_for_rebuild "all" true true true st).notes ↔
      ∃ n ∈ st.notes, n.id = id ∧ n.content.isSome = true) ∧
    (id ∈ (collect_items_for_rebuild "all" true true true st).insights ↔
      ∃ i ∈ st.insights, i.id = id) ∧
    (collect_items_for_rebuild "existing" true true true c3Store).sources =
      ["source:s1"] ∧
    (collect_items_for_rebuild "all" true true true c3Store).sources =
      ["source:s1", "source:s2", "source:s3"] := by
  refine ⟨?_, ?_, ?_, ?_, ?_, ?_, by decide, by decide⟩
  · simp only [collect_items_for_rebuild, if_pos rfl, if_true, List.mem_dedup,
      List.mem_map, List.mem_filter]
    constructor
    · rintro ⟨c, ⟨hc, hemb⟩, rfl⟩
      exact ⟨c, hc, rfl, hemb⟩
    · rintro ⟨c, hc, rfl, hemb⟩
      exact ⟨c, ⟨hc, hemb⟩, rfl⟩
  · simp only [collect_items_for_rebuild, if_pos rfl, if_true, List.mem_map,
      List.mem_filter]
    constructor
    · rintro ⟨n, ⟨hn, hemb⟩, rfl⟩
      exact ⟨n, hn, rfl, hemb⟩
    · rintro ⟨n, hn, rfl, hemb⟩
      exact ⟨n, ⟨hn, hemb⟩, rfl⟩
  · simp only [collect_items_for_rebuild, if_pos rfl, if_true, List.mem_map,
      List.mem_filter]
    constructor
    · rintro ⟨i, ⟨hi, hemb⟩, rfl⟩
      exact ⟨i, hi, rfl, hemb⟩
    · rintro ⟨i, hi, rfl, hemb⟩
      exact ⟨i, ⟨hi, hemb⟩, rfl⟩
  · have hmode : ¬("all" : String) = "existing" := by decide
    simp only [collect_items_for_rebuild, if_neg hmode, if_true, List.mem_map,
      List.mem_filter]
    constructor
    · rintro ⟨s, ⟨hs, hft⟩, rfl⟩
      exact ⟨s, hs, rfl, hft⟩
    · rintro ⟨s, hs, rfl, hft⟩
      exact ⟨s, ⟨hs, hft⟩, rfl⟩
  · have hmode : ¬("all" : String) = "existing" := by decide
    simp only [collect_items_for_rebuild, if_neg hmode, if_true, List.mem_map,
      List.mem_filter]
    constructor
    · rintro ⟨n, ⟨hn, hct⟩, rfl⟩
      exact ⟨n, hn, rfl, hct⟩
    · rintro ⟨n, hn, rfl, hct⟩
      exact ⟨n, ⟨hn, hct⟩, rfl⟩
  · have hmode : ¬("all" : String) = "existing" := by decide
    simp only [collect_items_for_rebuild, if_neg hmode, if_true, List.mem_map]

/-- Witness for C3: the membership characterisation instantiated at the
concrete store and the embedded source id. -/
theorem c3_collect_modes_witness :
    "source:s1" ∈ (collect_items_for_rebuild "existing" true true true c3Store).sources ↔
      ∃ c ∈ c3Store.chunks, c.source = "source:s1" ∧
        hasNonEmptyEmbedding c.embedding = true :=
  (c3_collect_modes c3Store "source:s1").1

/-! ### Claim C6: rebuild batch processing -/

/-- The empty store. -/
def emptyStore : Store := { sources := [], chunks := [], notes := [], insights := [] }

/-- Store for the C6 failure-isolation instance: two sources with text. -/
def c6Store : Store :=
  { sources := [{ id := "source:s1", full_text := some "a" },
                { id := "source:s2", full_text := some "b" }],
    chunks := [], notes := [], insights := [] }

/-- Outcome oracle for the C6 instance: `source:s1` succeeds, every other
id no longer resolves. -/
def c6SrcOut : String → ItemOutcome :=
  fun id => if id = "source:s1" then .ok else .notFound

/-- Outcome oracle that always succeeds. -/
def allOkOut : String → ItemOutcome := fun _ => .ok

/-- C6: with an embedding model available, a rebuild run always reports
success with no error message; every collected item lands in exactly one
of the processed or failed counters (so one failing item never aborts the
batch or skips the rest), `processed_items` is the sum of the per-type
counters, an empty collection is a successful no-op with all counters
zero, and in the concrete two-source store where one id fails the run
still processes the other and reports one failure. -/
theorem c6_rebuild_failure_isolation (mode : String)
    (incS incN incI : Bool) (st : Store)
    (srcOut noteOut insOut : String → ItemOutcome) :
    let out := rebuild_embeddings_command true mode incS incN incI st
      srcOut noteOut insOut
    out.success = true ∧
    out.processed_items =
      out.sources_processed + out.notes_processed + out.insights_processed ∧
    out.processed_items + out.failed_items = out.total_items ∧
    out.error_message = none ∧
    rebuild_embeddings_command true "all" true true true emptyStore
      srcOut noteOut insOut =
      { success := true, total_items := 0, processed_items := 0,
        failed_items := 0, sources_processed := 0, notes_processed := 0,
        insights_processed := 0, error_message := none } ∧
    rebuild_embeddings_command true "all" true true true c6Store
      c6SrcOut allOkOut allOkOut =
      { success := true, total_items := 2, processed_items := 1,
        failed_items := 1, sources_processed := 1, notes_processed := 0,
        insights_processed := 0, error_message := none } := by
  intro out
  have hout :
      out.success = true ∧
      out.processed_items =
        out.sources_processed + out.notes_processed + out.insights_processed ∧
      out.processed_items + out.failed_items = out.total_items ∧
      out.error_message = none := by
    show _ ∧ _ ∧ _ ∧ _
    simp only [out, rebuild_embeddings_command, Bool.not_true, Bool.false_eq_true,
      if_false]
    by_cases h :
        (collect_items_for_rebuild mode incS incN incI st).sources.length +
          (collect_items_for_rebuild mode incS incN incI st).notes.length +
          (collect_items_for_rebuild mode incS incN incI st).insights.length = 0
    · rw [if_pos h]
      exact ⟨rfl, rfl, rfl, rfl⟩
    · rw [if_neg h]
      refine ⟨rfl, rfl, ?_, rfl⟩
      have hs := processLoop_sum srcOut (collect_items_for_rebuild mode incS incN incI st).sources
      have hn := processLoop_sum noteOut (collect_items_for_rebuild mode incS incN incI st).notes
      have hi := processLoop_sum insOut (collect_items_for_rebuild mode incS incN incI st).insights
      simp only []
      omega
  refine ⟨hout.1, hout.2.1, hout.2.2.1, hout.2.2.2, rfl, by decide⟩

/-! ### Claim C1: chunk embedding retry contract -/

theorem dispatchAttempts_ok (retry_on : List PyExcKind)
    (body : Nat → Except PyExc EmbedChunkOutput) (a s : Nat)
    (out : EmbedChunkOutput) (h : body a = .ok out) :
    dispatchAttempts retry_on body a (s + 1) = (a + 1, .ok out) := by
  rw [dispatchAttempts, h]

theorem dispatchAttempts_error (retry_on : List PyExcKind)
    (body : Nat → Except PyExc EmbedChunkOutput) (a s : Nat)
    (e : PyExc) (h : body a = .error e) :
    dispatchAttempts retry_on body a (s + 1) =
      if s ≠ 0 ∧ e.kind ∈ retry_on then
        dispatchAttempts retry_on body (a + 1) s
      else (a + 1, .error e) := by
  rw [dispatchAttempts, h]

theorem dispatchAttempts_le (retry_on : List PyExcKind)
    (body : Nat → Except PyExc EmbedChunkOutput) :
    ∀ (r a : Nat), (dispatchAttempts retry_on body a r).1 ≤ a + r := by
  intro r
  induction r with
  | zero =>
      intro a
      simp [dispatchAttempts]
  | succ s ih =>
      intro a
      cases hb : body a with
      | ok out =>
          rw [dispatchAttempts_ok retry_on body a s out hb]
          omega
      | error e =>
          rw [dispatchAttempts_error retry_on body a s e hb]
          by_cases hc : s ≠ 0 ∧ e.kind ∈ retry_on
          · rw [if_pos hc]
            have := ih (a + 1)
            omega
          · rw [if_neg hc]
            show a + 1 ≤ a + (s + 1)
            omega

theorem dispatchAttempts_ge (retry_on : List PyExcKind)
    (body : Nat → Except PyExc EmbedChunkOutput) :
    ∀ (r a : Nat), r ≠ 0 → a + 1 ≤ (dispatchAttempts retry_on body a r).1 := by
  intro r
  induction r with
  | zero =>
      intro a h
      exact absurd rfl h
  | succ s ih =>
      intro a _
      cases hb : body a with
      | ok out =>
          rw [dispatchAttempts_ok retry_on body a s out hb]
      | error e =>
          rw [dispatchAttempts_error retry_on body a s e hb]
          by_cases hc : s ≠ 0 ∧ e.kind ∈ retry_on
          · rw [if_pos hc]
            have := ih (a + 1) hc.1
            omega
          · rw [if_neg hc]

/-- C1: the `embed_chunk` unit re-raises storage write-conflict
(`RuntimeError`), connection and timeout errors past its boundary, its
declared policy retries exactly those kinds with at most 15 attempts and
exponential-jitter backoff bounded to 1–120 seconds (so a transient first
outcome leads to at least a second attempt and the dispatcher never makes
more than 15), while any other exception is converted on the first
attempt into a structured `success = false` result carrying the error
message, which the dispatcher returns after exactly 1 attempt (zero
retries). -/
theorem c1_embed_chunk_retry_contract (input : EmbedChunkInput)
    (outcomes : Nat → Option PyExc) :
    embedChunkRetryPolicy.max_attempts = 15 ∧
    embedChunkRetryPolicy.wait_strategy = WaitStrategy.exponential_jitter ∧
    embedChunkRetryPolicy.wait_min = 1 ∧
    embedChunkRetryPolicy.wait_max = 120 ∧
    embedChunkRetryPolicy.retry_on =
      [PyExcKind.runtimeError, PyExcKind.connectionError, PyExcKind.timeoutError] ∧
    (∀ e : PyExc, e.kind ∈ embedChunkRetryPolicy.retry_on →
      embed_chunk_command input (some e) = Except.error e) ∧
    (∀ e : PyExc, e.kind ∉ embedChunkRetryPolicy.retry_on →
      embed_chunk_command input (some e) =
        Except.ok { success := false, source_id := input.source_id,
                    chunk_index := input.chunk_index,
                    error_message := some e.msg }) ∧
    (∀ e : PyExc, outcomes 0 = some e →
      e.kind ∉ embedChunkRetryPolicy.retry_on →
      dispatch embedChunkRetryPolicy
          (fun n => embed_chunk_command input (outcomes n)) =
        (1, Except.ok { success := false, source_id := input.source_id,
                        chunk_index := input.chunk_index,
                        error_message := some e.msg })) ∧
    (∀ e : PyExc, outcomes 0 = some e →
      e.kind ∈ embedChunkRetryPolicy.retry_on →
      2 ≤ (dispatch embedChunkRetryPolicy
            (fun n => embed_chunk_command input (outcomes n))).1) ∧
    (dispatch embedChunkRetryPolicy
        (fun n => embed_chunk_command input (outcomes n))).1 ≤ 15 := by
  have htrans : ∀ e : PyExc, e.kind ∈ embedChunkRetryPolicy.retry_on →
      embed_chunk_command input (some e) = Except.error e := by
    intro e hmem
    cases e with
    | mk k m =>
        cases k <;> simp [embedChunkRetryPolicy] at hmem <;>
          simp [embed_chunk_command]
  have hperm : ∀ e : PyExc, e.kind ∉ embedChunkRetryPolicy.retry_on →
      embed_chunk_command input (some e) =
        Except.ok { success := false, source_id := input.source_id,
                    chunk_index := input.chunk_index,
                    error_message := some e.msg } := by
    intro e hmem
    cases e with
    | mk k m =>
        cases k <;> simp [embedChunkRetryPolicy] at hmem <;>
          simp [embed_chunk_command, PyExc.msg]
  refine ⟨rfl, rfl, rfl, rfl, rfl, htrans, hperm, ?_, ?_, ?_⟩
  · intro e h0 hmem
    show dispatchAttempts embedChunkRetryPolicy.retry_on
        (fun n => embed_chunk_command input (outcomes n)) 0 15 = _
    have hb : embed_chunk_command input (outcomes 0) =
        Except.ok { success := false, source_id := input.source_id,
                    chunk_index := input.chunk_index,
                    error_message := some e.msg } := by
      rw [h0]
      exact hperm e hmem
    rw [show (15 : Nat) = 14 + 1 from rfl,
      dispatchAttempts_ok _ _ 0 14 _ hb]
  · intro e h0 hmem
    show 2 ≤ (dispatchAttempts embedChunkRetryPolicy.retry_on
        (fun n => embed_chunk_command input (outcomes n)) 0 15).1
    have hb : embed_chunk_command input (outcomes 0) = Except.error e := by
      rw [h0]
      exact htrans e hmem
    rw [show (15 : Nat) = 14 + 1 from rfl,
      dispatchAttempts_error _ _ 0 14 e hb, if_pos ⟨by omega, hmem⟩]
    have := dispatchAttempts_ge embedChunkRetryPolicy.retry_on
      (fun n => embed_chunk_command input (outcomes n)) 14 (0 + 1) (by omega)
    omega
  · have := dispatchAttempts_le embedChunkRetryPolicy.retry_on
      (fun n => embed_chunk_command input (outcomes n)) 15 0
    simpa [dispatch] using this

/-- Input for the C1 witness. -/
def c1Input : EmbedChunkInput :=
  { source_id := "source:s1", chunk_index := 0, chunk_text := "chunk text" }

/-- Outcome oracle for the C1 witness: every attempt raises a
`ValueError`, a non-transient kind. -/
def c1Outcome : Nat → Option PyExc :=
  fun _ => some { kind := .valueError, msg := "No embedding model configured" }

/-- Witness for C1: a non-transient exception produces a structured
failure after exactly one attempt. -/
theorem c1_embed_chunk_retry_contract_witness :
    dispatch embedChunkRetryPolicy
        (fun n => embed_chunk_command c1Input (c1Outcome n)) =
      (1, Except.ok { success := false, source_id := "source:s1",
                      chunk_index := 0,
                      error_message := some "No embedding model configured" }) :=
  (c1_embed_chunk_retry_contract c1Input c1Outcome).2.2.2.2.2.2.2.1
    { kind := .valueError, msg := "No embedding model configured" }
    rfl (by decide)

end OpenNotebook
